import Mathlib

/-!
Shallow embedding of the Log-Analysis-Alerting-Automation repository:
the traffic-pattern simulation engine (`src/generator/traffic_simulator.py`),
the JSON-line log writer (`src/generator/log_generator.py`) and the alert
webhook handler (`src/alert_webhook.py`).

Conventions of the embedding:
* Python floats (times, durations, rates, probabilities) are modelled as
  exact rationals (`ℚ`); the float literal 0.05 becomes `1/20`, 0.2 becomes
  `1/5`, 0.3 becomes `3/10`, and so on.
* The pseudo-random source is passed in explicitly: `random.random()` is a
  rational parameter, `random.uniform(a, b)` a rational parameter constrained
  to `[a, b]` where a claim needs it, `random.randint(a, b)` is modelled as
  `a + r % (b - a + 1)` for a natural-number draw `r`, `random.choices`
  walks its cumulative weights at position `r % (sum of weights)`, and
  `random.choice` over a list takes a `Fin` index.
* `update_pattern` reads `time.time()` once into `current_time`; the Python
  `change_pattern` re-reads the clock, which in this single-tick model is
  the same instant, so the transition time is passed as a parameter.
* Exceptions raised by external sinks are modelled as an `Except` outcome
  parameter; a `try/except` block that swallows them becomes a total
  function of that outcome.
-/

namespace TrafficSim

/-- Catalog HTTP_METHODS of `traffic_simulator.py`. -/
def HTTP_METHODS : List String := ["GET", "POST", "PUT", "DELETE", "PATCH"]

/-- Catalog API_ENDPOINTS of `traffic_simulator.py`. -/
def API_ENDPOINTS : List String :=
  ["/login", "/api/v1/users", "/api/v1/products", "/logout", "/health"]

/-- Catalog STATUS_CODES of `traffic_simulator.py`. -/
def STATUS_CODES : List Nat := [200, 201, 202, 400, 401, 403, 404, 500, 503]

/-- The closed set of traffic patterns (class TrafficPattern). -/
inductive TrafficPattern where
  | NORMAL
  | SPIKE
  | OUTAGE
  | SLOW_RESPONSE
  | HIGH_ERROR_RATE
deriving DecidableEq, Repr

/-- The string each TrafficPattern class attribute is bound to in the source. -/
def patternStr : TrafficPattern → String
  | .NORMAL => "normal"
  | .SPIKE => "spike"
  | .OUTAGE => "outage"
  | .SLOW_RESPONSE => "slow_response"
  | .HIGH_ERROR_RATE => "high_error_rate"

/-- The mutable state of class TrafficSimulator: the InfluxDB client is
modelled by whether a connection exists. -/
structure TrafficSimulator where
  influx_client : Bool
  current_pattern : TrafficPattern
  pattern_start_time : ℚ
  pattern_duration : ℚ
  base_request_rate : ℚ
deriving DecidableEq, Repr

/-- `TrafficSimulator.__init__`: pattern NORMAL, duration 0, rate 1.0;
`t0` is the `time.time()` at construction and `client` whether the
InfluxDB connection succeeded. -/
def initState (t0 : ℚ) (client : Bool) : TrafficSimulator :=
  { influx_client := client
    current_pattern := .NORMAL
    pattern_start_time := t0
    pattern_duration := 0
    base_request_rate := 1 }

/-- `TrafficSimulator.change_pattern`: unconditionally overwrite pattern,
start time and duration. -/
def change_pattern (s : TrafficSimulator) (pattern : TrafficPattern)
    (duration : ℚ) (now : ℚ) : TrafficSimulator :=
  { s with
    current_pattern := pattern
    pattern_start_time := now
    pattern_duration := duration }

/-- First half of `TrafficSimulator.update_pattern`: expire the current
pattern to `(NORMAL, 0)` when its duration has elapsed. -/
def expiryStep (s : TrafficSimulator) (current_time : ℚ) : TrafficSimulator :=
  if s.pattern_duration > 0 ∧
      current_time - s.pattern_start_time > s.pattern_duration then
    change_pattern s .NORMAL 0 current_time
  else s

/-- The incident_patterns table of `update_pattern`. -/
def incident_patterns : List (TrafficPattern × ℚ) :=
  [(.SPIKE, 30), (.OUTAGE, 20), (.SLOW_RESPONSE, 40), (.HIGH_ERROR_RATE, 35)]

/-- `TrafficSimulator.update_pattern`: expiry step, then the spontaneous
incident branch; `r` is the `random.random()` draw and `choice` the
`random.choice` index into incident_patterns. -/
def update_pattern (s : TrafficSimulator) (current_time : ℚ) (r : ℚ)
    (choice : Fin 4) : TrafficSimulator :=
  let s1 := expiryStep s current_time
  if s1.current_pattern = .NORMAL ∧ r < 1/20 ∧
      current_time - s1.pattern_start_time > 30 then
    let pd := incident_patterns.get ⟨choice.val, choice.isLt⟩
    change_pattern s1 pd.1 pd.2 current_time
  else s1

/-- One tick's inputs to the state machine: the clock reading and the two
random draws `update_pattern` may consume. -/
structure TickInput where
  now : ℚ
  r : ℚ
  choice : Fin 4

/-- Iterate `update_pattern` over a sequence of tick inputs (the pattern
updates the scheduler loop performs, in order). -/
def runUpdates (s : TrafficSimulator) (ins : List TickInput) : TrafficSimulator :=
  ins.foldl (fun st i => update_pattern st i.now i.r i.choice) s

/-- Model of `random.choices(population, weights)[0]`: walk the list of
(value, weight) pairs, consuming the draw against each weight in turn. -/
def choicesPick : List (Nat × Nat) → Nat → Nat
  | [], _ => 0
  | (v, w) :: rest, r => if r < w then v else choicesPick rest (r - w)

/-- `random.choices(population, weights)[0]` with the raw draw `r` reduced
modulo the total weight. -/
def choices (population : List Nat) (weights : List Nat) (r : Nat) : Nat :=
  choicesPick (population.zip weights) (r % weights.sum)

/-- Model of `random.randint(a, b)`: inclusive uniform integer range. -/
def randint (a b : Nat) (r : Nat) : Nat :=
  a + r % (b - a + 1)

/-- `TrafficSimulator._get_pattern_specific_values`, dispatching on the
pattern as a `TrafficPattern` value; `rs` drives the status draw and `rl`
the latency draw. -/
def get_pattern_specific_values (p : TrafficPattern) (rs rl : Nat) :
    Nat × Nat :=
  match p with
  | .NORMAL =>
      (choices STATUS_CODES [30, 10, 10, 5, 3, 2, 2, 3, 1] rs,
       randint 50 500 rl)
  | .SPIKE =>
      (choices STATUS_CODES [25, 8, 8, 8, 5, 3, 3, 5, 2] rs,
       randint 100 800 rl)
  | .OUTAGE =>
      (choices [500, 503, 504] [1, 2, 1] rs,
       randint 5000 10000 rl)
  | .SLOW_RESPONSE =>
      (choices STATUS_CODES [30, 10, 10, 5, 3, 2, 2, 3, 1] rs,
       randint 1500 3000 rl)
  | .HIGH_ERROR_RATE =>
      (choices STATUS_CODES [10, 3, 3, 15, 10, 8, 8, 15, 10] rs,
       randint 50 500 rl)

/-- `TrafficSimulator._get_pattern_specific_values` dispatching on the raw
string held in `self.current_pattern`, as the Python if/elif chain does;
`none` models falling through every branch, reaching the final `return`
with `status` and `latency` unbound (UnboundLocalError). -/
def getPatternValuesStr (current_pattern : String) (rs rl : Nat) :
    Option (Nat × Nat) :=
  if current_pattern = "normal" then
    some (choices STATUS_CODES [30, 10, 10, 5, 3, 2, 2, 3, 1] rs,
          randint 50 500 rl)
  else if current_pattern = "spike" then
    some (choices STATUS_CODES [25, 8, 8, 8, 5, 3, 3, 5, 2] rs,
          randint 100 800 rl)
  else if current_pattern = "outage" then
    some (choices [500, 503, 504] [1, 2, 1] rs,
          randint 5000 10000 rl)
  else if current_pattern = "slow_response" then
    some (choices STATUS_CODES [30, 10, 10, 5, 3, 2, 2, 3, 1] rs,
          randint 1500 3000 rl)
  else if current_pattern = "high_error_rate" then
    some (choices STATUS_CODES [10, 3, 3, 15, 10, 8, 8, 15, 10] rs,
          randint 50 500 rl)
  else none

/-- `TrafficSimulator._get_request_interval`; `j` is the
`random.uniform(-0.3, 0.3)` jitter draw (only consumed on the else branch). -/
def get_request_interval (s : TrafficSimulator) (j : ℚ) : ℚ :=
  let base_interval := 1 / s.base_request_rate
  if s.current_pattern = .SPIKE then
    base_interval * (1/5)
  else if s.current_pattern = .OUTAGE then
    base_interval * 2
  else
    base_interval + j

/-- The log-entry dictionary built by `generate_log_entry` (both in
`traffic_simulator.py` and `log_generator.py`), minus the `timestamp_dt`
datetime, which is removed before JSON serialization. -/
structure LogEntry where
  timestamp : String
  request_id : String
  method : String
  api : String
  status : Nat
  latency_ms : Nat
deriving DecidableEq, Repr

/-- `TrafficSimulator.generate_log_entry`: timestamp and request_id come
from the clock and the UUID source; `mi`, `ai` index the uniform draws
from the method/endpoint catalogs; `rs`, `rl` drive the pattern-specific
status and latency draws. -/
def generate_log_entry (s : TrafficSimulator) (timestamp request_id : String)
    (mi ai : Fin 5) (rs rl : Nat) : LogEntry :=
  let method := HTTP_METHODS.get ⟨mi.val, mi.isLt⟩
  let api := API_ENDPOINTS.get ⟨ai.val, ai.isLt⟩
  let sl := get_pattern_specific_values s.current_pattern rs rl
  { timestamp := timestamp
    request_id := request_id
    method := method
    api := api
    status := sl.1
    latency_ms := sl.2 }

/-- JSON values, as Python's `json` module sees them (numbers restricted
to the integers the generator produces). -/
inductive Json where
  | str : String → Json
  | num : Int → Json
  | bool : Bool → Json
  | null : Json
  | arr : List Json → Json
  | obj : List (String × Json) → Json

mutual

/-- `json.dumps` with its default separators, for strings that contain no
characters requiring escapes. -/
def dumps : Json → String
  | .str s => "\"" ++ s ++ "\""
  | .num n => toString n
  | .bool b => if b then "true" else "false"
  | .null => "null"
  | .arr xs => "[" ++ dumpsArr xs ++ "]"
  | .obj kvs => "\x7b" ++ dumpsObj kvs ++ "\x7d"

/-- Comma-joined serialization of a JSON array's elements. -/
def dumpsArr : List Json → String
  | [] => ""
  | [x] => dumps x
  | x :: y :: xs => dumps x ++ ", " ++ dumpsArr (y :: xs)

/-- Comma-joined serialization of a JSON object's members. -/
def dumpsObj : List (String × Json) → String
  | [] => ""
  | [(k, v)] => "\"" ++ k ++ "\": " ++ dumps v
  | (k, v) :: p :: rest =>
      "\"" ++ k ++ "\": " ++ dumps v ++ ", " ++ dumpsObj (p :: rest)

end

/-- Key lookup in a JSON value, defined on objects (Python `d[k]` / `k in d`
for a dict). -/
def jsonGet (j : Json) (k : String) : Option Json :=
  match j with
  | .obj kvs => kvs.lookup k
  | _ => none

/-- The `json_data` dictionary of `log_generator.py`'s serialization loop:
`log_data` with `timestamp_dt` removed, keys in insertion order. -/
def json_data (e : LogEntry) : Json :=
  .obj [("timestamp", .str e.timestamp),
        ("request_id", .str e.request_id),
        ("method", .str e.method),
        ("api", .str e.api),
        ("status", .num e.status),
        ("latency_ms", .num e.latency_ms)]

/-- Parsing a serialized log line back into its fields (`json.loads` of the
emitted object, at the value level). -/
def parse_log_entry (j : Json) : Option LogEntry :=
  match jsonGet j "timestamp", jsonGet j "request_id", jsonGet j "method",
        jsonGet j "api", jsonGet j "status", jsonGet j "latency_ms" with
  | some (.str ts), some (.str rid), some (.str m), some (.str a),
      some (.num st), some (.num lat) =>
      if 0 ≤ st ∧ 0 ≤ lat then
        some { timestamp := ts, request_id := rid, method := m, api := a,
               status := st.toNat, latency_ms := lat.toNat }
      else none
  | _, _, _, _, _, _ => none

/-- `TrafficSimulator.write_to_influxdb`: returns False when no client is
connected; otherwise the attempt to build and write the point either
succeeds (True) or raises, in which case the exception is caught and
False is returned. `outcome` is the external write attempt's result. -/
def write_to_influxdb (s : TrafficSimulator) (log_data : LogEntry)
    (outcome : Except String Unit) : Bool :=
  if s.influx_client = false then false
  else
    match outcome with
    | .ok _ => true
    | .error _ => false

/-- One iteration of `TrafficSimulator.run`: update the pattern, generate a
log entry, attempt the InfluxDB write, compute the next sleep interval. -/
structure TickResult where
  state : TrafficSimulator
  log_data : LogEntry
  influx_success : Bool
  next_interval : ℚ
deriving Repr

/-- One iteration of the `run` loop. All randomness and the external write
outcome are explicit inputs; the returned state is the state the next
iteration starts from. -/
def runTick (s : TrafficSimulator) (i : TickInput)
    (timestamp request_id : String) (mi ai : Fin 5) (rs rl : Nat)
    (outcome : Except String Unit) (j : ℚ) : TickResult :=
  let s1 := update_pattern s i.now i.r i.choice
  let log_data := generate_log_entry s1 timestamp request_id mi ai rs rl
  let influx_success := write_to_influxdb s1 log_data outcome
  { state := s1
    log_data := log_data
    influx_success := influx_success
    next_interval := get_request_interval s1 j }

/-- HTTP response sent by the webhook handler: status code and the body
bytes written, if any. -/
structure AlertResponse where
  status : Nat
  body : Option String
deriving DecidableEq, Repr

/-- Does one iteration of `process_alert`'s display loop run without an
exception on this alert? The alert must be a dict (`alert.get`), its
`status` — if present — a string (`.upper()`), its `labels` and
`annotations` — if present — dicts (`.get`), and the severity value
hashable (used as a dict-lookup key). -/
def alertOk (alert : Json) : Bool :=
  match alert with
  | .obj _ =>
      (match jsonGet alert "status" with
       | some (.str _) => true
       | some _ => false
       | none => true) &&
      (match jsonGet alert "labels" with
       | some (.obj lkvs) =>
          (match lkvs.lookup "severity" with
           | some (.arr _) => false
           | some (.obj _) => false
           | _ => true)
       | some _ => false
       | none => true) &&
      (match jsonGet alert "annotations" with
       | some (.obj _) => true
       | some _ => false
       | none => true)
  | _ => false

/-- `AlertHandler.process_alert`: prints a banner, iterates
`alert_data['alerts']` when present, and appends one line
`"[<timestamp>] <json.dumps(alert_data)>\n"` to `logs/alerts.log`.
Returns the appended line; `none` models an exception escaping to
`do_POST`'s handler (TypeError/AttributeError on unexpected shapes,
raised before the file write). -/
def process_alert (alert_data : Json) (timestamp : String) : Option String :=
  let line := "[" ++ timestamp ++ "] " ++ dumps alert_data ++ "\n"
  match alert_data with
  | .obj kvs =>
      match kvs.lookup "alerts" with
      | none => some line
      | some (.arr alerts) =>
          if alerts.all alertOk then some line else none
      | some (.obj inner) =>
          -- dict: the for-loop iterates its keys; zero iterations succeed,
          -- otherwise the first key is a string with no .get: AttributeError
          if inner.isEmpty then some line else none
      | some (.str u) =>
          -- string: the for-loop iterates its characters; zero iterations
          -- succeed, otherwise a one-character string has no .get
          if u.isEmpty then some line else none
      | some _ => none
  | .arr xs =>
      -- list: `'alerts' in alert_data` is a membership test; if it holds,
      -- `alert_data['alerts']` indexes a list with a string: TypeError
      if xs.any (fun x => match x with | .str s => s == "alerts" | _ => false)
      then none else some line
  | .str s =>
      -- string: `in` is a substring test; if it holds, string indexing
      -- with a string raises TypeError
      if (s.splitOn "alerts").length ≥ 2 then none else some line
  | _ =>
      -- `'alerts' in <int/bool/None>` raises TypeError
      none

/-- `AlertHandler.do_POST`: route on the path, parse the body
(`body` is the `json.loads` outcome), run `process_alert`, respond.
Returns the response and the line appended to the alerts log (if any). -/
def do_POST (path : String) (body : Except String Json) (timestamp : String) :
    AlertResponse × Option String :=
  if path = "/alerts" then
    match body with
    | .error _ => ({ status := 400, body := none }, none)
    | .ok alert_data =>
        match process_alert alert_data timestamp with
        | some line =>
            ({ status := 200,
               body := some "\x7b\"status\": \"received\"\x7d" }, some line)
        | none => ({ status := 400, body := none }, none)
  else ({ status := 404, body := none }, none)

/-- The status-code catalog each pattern draws from (the population lists
passed to random.choices per branch). -/
def statusCatalog : TrafficPattern → List Nat
  | .OUTAGE => [500, 503, 504]
  | _ => STATUS_CODES

/-- The inclusive latency range of each pattern (the randint bounds per
branch). -/
def latencyRange : TrafficPattern → Nat × Nat
  | .NORMAL => (50, 500)
  | .SPIKE => (100, 800)
  | .OUTAGE => (5000, 10000)
  | .SLOW_RESPONSE => (1500, 3000)
  | .HIGH_ERROR_RATE => (50, 500)

/-- Walking the (value, weight) pairs with a draw below the total weight
always lands on one of the values. -/
theorem choicesPick_mem (pairs : List (Nat × Nat)) (r : Nat)
    (h : r < (pairs.map Prod.snd).sum) :
    choicesPick pairs r ∈ pairs.map Prod.fst := by
  induction pairs generalizing r with
  | nil => simp at h
  | cons hd tl ih =>
    obtain ⟨v, w⟩ := hd
    simp only [choicesPick, List.map_cons, List.mem_cons]
    by_cases hr : r < w
    · rw [if_pos hr]
      left
      rfl
    · rw [if_neg hr]
      right
      apply ih
      simp only [List.map_cons, List.sum_cons] at h
      omega

/-- The weighted choice always returns an element of the population when
the weights line up with it and their sum is positive. -/
theorem choices_mem (population weights : List Nat) (r : Nat)
    (hlen : population.length = weights.length) (hpos : 0 < weights.sum) :
    choices population weights r ∈ population := by
  unfold choices
  have h1 : ((population.zip weights).map Prod.snd).sum = weights.sum := by
    rw [List.map_snd_zip _ _ (le_of_eq hlen.symm)]
  have h2 : (population.zip weights).map Prod.fst = population :=
    List.map_fst_zip _ _ (le_of_eq hlen)
  have h3 := choicesPick_mem (population.zip weights) (r % weights.sum)
    (by rw [h1]; exact Nat.mod_lt _ hpos)
  rwa [h2] at h3

/-- randint stays inside its inclusive bounds. -/
theorem randint_bounds (a b r : Nat) (h : a ≤ b) :
    a ≤ randint a b r ∧ randint a b r ≤ b := by
  unfold randint
  have hm : r % (b - a + 1) < b - a + 1 := Nat.mod_lt _ (by omega)
  omega

/-- C2: under every pattern of the closed set and every outcome of the
random draws, the generated status code lies in the pattern's catalog
({500, 503, 504} for OUTAGE, the nine-code STATUS_CODES catalog for the
others) and the latency lies within the pattern's declared inclusive
range (NORMAL 50-500, SPIKE 100-800, OUTAGE 5000-10000, SLOW_RESPONSE
1500-3000, HIGH_ERROR_RATE 50-500) — never outside it. -/
theorem status_latency_in_catalog (p : TrafficPattern) (rs rl : Nat) :
    (get_pattern_specific_values p rs rl).1 ∈ statusCatalog p ∧
    (latencyRange p).1 ≤ (get_pattern_specific_values p rs rl).2 ∧
    (get_pattern_specific_values p rs rl).2 ≤ (latencyRange p).2 := by
  cases p <;>
    exact ⟨choices_mem _ _ _ (by decide) (by decide),
      (randint_bounds _ _ rl (by decide)).1,
      (randint_bounds _ _ rl (by decide)).2⟩

/-- C3 counterexample: the interval computation performs no clamping — with
base_request_rate = 10 and jitter draw -3/10 the computed delay is
negative, so the "never negative for every value of base_request_rate"
part of the interval law fails on the code. -/
theorem interval_negative_counterexample :
    get_request_interval
      { influx_client := true, current_pattern := .NORMAL,
        pattern_start_time := 0, pattern_duration := 0,
        base_request_rate := 10 } (-(3/10)) < 0 := by
  rw [get_request_interval, if_neg (by decide), if_neg (by decide)]
  norm_num

/-- C3 (amended): for SPIKE the delay is exactly (1/5)/base_request_rate
and for OUTAGE exactly 2/base_request_rate; for every other pattern and
any jitter draw in [-3/10, 3/10] the delay lies within
[1/base_request_rate - 3/10, 1/base_request_rate + 3/10]. The code
performs no clamping: the delay is non-negative only under the extra
assumption 3/10 ≤ 1/base_request_rate (which holds at the default rate
1.0), not for every value of base_request_rate. -/
theorem interval_law (s : TrafficSimulator) (j : ℚ) :
    (s.current_pattern = .SPIKE →
      get_request_interval s j = (1/5) / s.base_request_rate) ∧
    (s.current_pattern = .OUTAGE →
      get_request_interval s j = 2 / s.base_request_rate) ∧
    (s.current_pattern ≠ .SPIKE → s.current_pattern ≠ .OUTAGE →
      -(3/10) ≤ j → j ≤ 3/10 →
      1 / s.base_request_rate - 3/10 ≤ get_request_interval s j ∧
      get_request_interval s j ≤ 1 / s.base_request_rate + 3/10 ∧
      (3/10 ≤ 1 / s.base_request_rate → 0 ≤ get_request_interval s j)) := by
  refine ⟨?_, ?_, ?_⟩
  · intro hs
    rw [get_request_interval, if_pos hs]
    ring
  · intro hs
    have hns : s.current_pattern ≠ .SPIKE := by
      rw [hs]
      intro h
      cases h
    rw [get_request_interval, if_neg hns, if_pos hs]
    ring
  · intro h1 h2 hjl hjr
    rw [get_request_interval, if_neg h1, if_neg h2]
    refine ⟨by linarith, by linarith, fun hb => by linarith⟩

/-- Witness for C3 (amended) at a concrete input: under SPIKE with rate 2
the delay is exactly (1/5)/2 = 1/10. -/
theorem interval_law_witness :
    get_request_interval
      { influx_client := true, current_pattern := .SPIKE,
        pattern_start_time := 0, pattern_duration := 30,
        base_request_rate := 2 } 0 = (1/5) / 2 :=
  (interval_law
    { influx_client := true, current_pattern := .SPIKE,
      pattern_start_time := 0, pattern_duration := 30,
      base_request_rate := 2 } 0).1 rfl

/-- C4: the spontaneous-incident branch of update_pattern never fires when
the pattern left by the expiry step is not NORMAL, never fires when `now`
is within 30 seconds of the current pattern_start_time (the instant of
the most recent transition), and never fires when the probability draw is
not below 1/20 (= 0.05); when it does fire, the incident and its duration
are the chosen entry of the fixed four-entry incident_patterns table. -/
theorem spontaneous_trigger_guard (s : TrafficSimulator) (now r : ℚ)
    (choice : Fin 4) :
    ((expiryStep s now).current_pattern ≠ .NORMAL →
      update_pattern s now r choice = expiryStep s now) ∧
    (now - (expiryStep s now).pattern_start_time ≤ 30 →
      update_pattern s now r choice = expiryStep s now) ∧
    (¬ r < 1/20 →
      update_pattern s now r choice = expiryStep s now) ∧
    ((expiryStep s now).current_pattern = .NORMAL → r < 1/20 →
      now - (expiryStep s now).pattern_start_time > 30 →
      update_pattern s now r choice =
        change_pattern (expiryStep s now)
          (incident_patterns.get ⟨choice.val, choice.isLt⟩).1
          (incident_patterns.get ⟨choice.val, choice.isLt⟩).2 now) := by
  refine ⟨?_, ?_, ?_, ?_⟩
  · intro h
    simp only [update_pattern]
    rw [if_neg fun hc => h hc.1]
  · intro h
    simp only [update_pattern]
    rw [if_neg fun hc => absurd hc.2.2 (not_lt.mpr h)]
  · intro h
    simp only [update_pattern]
    rw [if_neg fun hc => h hc.2.1]
  · intro h1 h2 h3
    simp only [update_pattern]
    rw [if_pos ⟨h1, h2, h3⟩]

/-- Witness for C4 at a concrete input: a SPIKE state 10 seconds in, with a
firing probability draw, is left untouched by update_pattern. -/
theorem spontaneous_trigger_guard_witness :
    update_pattern
      { influx_client := true, current_pattern := .SPIKE,
        pattern_start_time := 0, pattern_duration := 30,
        base_request_rate := 1 } 10 0 0 =
    expiryStep
      { influx_client := true, current_pattern := .SPIKE,
        pattern_start_time := 0, pattern_duration := 30,
        base_request_rate := 1 } 10 :=
  (spontaneous_trigger_guard _ 10 0 0).1 (by
    rw [expiryStep, if_neg (by norm_num)]
    decide)

/-- Each entry of the incident table pairs its pattern with its duration:
SPIKE 30, OUTAGE 20, SLOW_RESPONSE 40, HIGH_ERROR_RATE 35. -/
theorem incident_table_durations (i : Fin 4) :
    ((incident_patterns.get ⟨i.val, i.isLt⟩).1 = .SPIKE →
      (incident_patterns.get ⟨i.val, i.isLt⟩).2 = 30) ∧
    ((incident_patterns.get ⟨i.val, i.isLt⟩).1 = .OUTAGE →
      (incident_patterns.get ⟨i.val, i.isLt⟩).2 = 20) ∧
    ((incident_patterns.get ⟨i.val, i.isLt⟩).1 = .SLOW_RESPONSE →
      (incident_patterns.get ⟨i.val, i.isLt⟩).2 = 40) ∧
    ((incident_patterns.get ⟨i.val, i.isLt⟩).1 = .HIGH_ERROR_RATE →
      (incident_patterns.get ⟨i.val, i.isLt⟩).2 = 35) ∧
    ((incident_patterns.get ⟨i.val, i.isLt⟩).1 = .NORMAL →
      (incident_patterns.get ⟨i.val, i.isLt⟩).2 = 0) := by
  fin_cases i <;> decide

/-- A single update_pattern step preserves the duration invariant. -/
theorem update_preserves_inv (s : TrafficSimulator) (now r : ℚ) (c : Fin 4)
    (h : s.pattern_duration = 0 → s.current_pattern = .NORMAL) :
    (update_pattern s now r c).pattern_duration = 0 →
    (update_pattern s now r c).current_pattern = .NORMAL := by
  simp only [update_pattern]
  split
  · fin_cases c <;> intro h0 <;> norm_num [incident_patterns, change_pattern] at h0
  · simp only [expiryStep]
    split
    · intro _
      rfl
    · exact h

/-- The duration invariant holds along every update_pattern trace. -/
theorem runUpdates_inv (ins : List TickInput) (s : TrafficSimulator)
    (h : s.pattern_duration = 0 → s.current_pattern = .NORMAL) :
    (runUpdates s ins).pattern_duration = 0 →
    (runUpdates s ins).current_pattern = .NORMAL := by
  induction ins generalizing s with
  | nil => exact h
  | cons i ins ih =>
    simp only [runUpdates, List.foldl_cons] at *
    exact ih _ (update_preserves_inv s i.now i.r i.choice h)

/-- C5: from the initial state, every state reached by a sequence of
update_pattern calls satisfies the invariant pattern_duration = 0 →
current_pattern = NORMAL; and whenever one update_pattern call changes
the pattern, the new duration is exactly the table entry: SPIKE 30,
OUTAGE 20, SLOW_RESPONSE 40, HIGH_ERROR_RATE 35 (and 0 for the expiry
transition back to NORMAL). -/
theorem duration_zero_only_normal :
    (∀ (t0 : ℚ) (client : Bool) (ins : List TickInput),
      (runUpdates (initState t0 client) ins).pattern_duration = 0 →
      (runUpdates (initState t0 client) ins).current_pattern = .NORMAL) ∧
    (∀ (s : TrafficSimulator) (now r : ℚ) (c : Fin 4),
      (update_pattern s now r c).current_pattern ≠ s.current_pattern →
      ((update_pattern s now r c).current_pattern = .SPIKE →
        (update_pattern s now r c).pattern_duration = 30) ∧
      ((update_pattern s now r c).current_pattern = .OUTAGE →
        (update_pattern s now r c).pattern_duration = 20) ∧
      ((update_pattern s now r c).current_pattern = .SLOW_RESPONSE →
        (update_pattern s now r c).pattern_duration = 40) ∧
      ((update_pattern s now r c).current_pattern = .HIGH_ERROR_RATE →
        (update_pattern s now r c).pattern_duration = 35) ∧
      ((update_pattern s now r c).current_pattern = .NORMAL →
        (update_pattern s now r c).pattern_duration = 0)) := by
  constructor
  · intro t0 client ins
    exact runUpdates_inv ins (initState t0 client) (fun _ => rfl)
  · intro s now r c hne
    simp only [update_pattern] at hne ⊢
    split at hne
    all_goals rename_i hcond
    · rw [if_pos hcond]
      simp only [change_pattern]
      exact incident_table_durations c
    · rw [if_neg hcond]
      revert hne
      simp only [expiryStep]
      split
      · intro _
        refine ⟨fun h => ?_, fun h => ?_, fun h => ?_, fun h => ?_, fun _ => rfl⟩
        all_goals exact absurd h (by simp [change_pattern])
      · intro hne
        exact absurd rfl hne

/-- Witness for C5 at a concrete input: the empty trace from the initial
state has duration 0 and pattern NORMAL. -/
theorem duration_zero_only_normal_witness :
    (runUpdates (initState 0 true) []).current_pattern = .NORMAL :=
  duration_zero_only_normal.1 0 true [] rfl

/-- C10: at most one transition per update_pattern call — whenever the
expiry rule fires, the result is exactly the NORMAL state with start time
`now` and duration 0, for every outcome of the incident draws: the reset
start time makes the 30-second calm guard read 0 > 30, so the same call
can never chain expiry into a new incident. -/
theorem expiry_excludes_incident (s : TrafficSimulator) (now r : ℚ)
    (c : Fin 4) (hd : 0 < s.pattern_duration)
    (hexp : now - s.pattern_start_time > s.pattern_duration) :
    update_pattern s now r c =
      { s with current_pattern := .NORMAL, pattern_start_time := now,
               pattern_duration := 0 } := by
  have hs1 : expiryStep s now = change_pattern s .NORMAL 0 now := by
    rw [expiryStep, if_pos ⟨hd, hexp⟩]
  simp only [update_pattern, hs1, change_pattern]
  rw [if_neg]
  intro hc
  have h30 := hc.2.2
  rw [sub_self] at h30
  exact absurd h30 (by norm_num)

/-- Witness for C10 at a concrete input: an expired OUTAGE resets to
(NORMAL, start 26, duration 0) even though the incident draw 0 < 1/20
would fire. -/
theorem expiry_excludes_incident_witness :
    update_pattern
      { influx_client := true, current_pattern := .OUTAGE,
        pattern_start_time := 5, pattern_duration := 20,
        base_request_rate := 1 } 26 0 0 =
      { influx_client := true, current_pattern := .NORMAL,
        pattern_start_time := 26, pattern_duration := 0,
        base_request_rate := 1 } :=
  expiry_excludes_incident _ 26 0 0 (by norm_num) (by norm_num)

/-- C9: sample generation is total over the closed pattern set — for every
pattern of the five, the string dispatch of _get_pattern_specific_values
takes one of the five branches and returns a fully formed (status,
latency) pair; the fall-through branch (which would reach the return with
status and latency unbound) is unreachable. -/
theorem generation_total (p : TrafficPattern) (rs rl : Nat) :
    getPatternValuesStr (patternStr p) rs rl =
      some (get_pattern_specific_values p rs rl) := by
  cases p <;> rfl

/-- Whenever process_alert succeeds, the line it appends is exactly the
timestamp prefix followed by the json.dumps serialization of the payload. -/
theorem process_alert_line (d : Json) (ts line : String)
    (h : process_alert d ts = some line) :
    line = "[" ++ ts ++ "] " ++ dumps d ++ "\n" := by
  cases d with
  | obj kvs =>
    simp only [process_alert] at h
    cases hl : kvs.lookup "alerts" with
    | none =>
      simp only [hl] at h
      exact (Option.some.inj h).symm
    | some v =>
      cases v with
      | arr xs =>
        simp only [hl] at h
        by_cases ha : xs.all alertOk = true
        · rw [if_pos ha] at h
          exact (Option.some.inj h).symm
        · rw [if_neg ha] at h
          exact Option.noConfusion h
      | str u =>
        simp only [hl] at h
        by_cases he : u.isEmpty = true
        · rw [if_pos he] at h
          exact (Option.some.inj h).symm
        · rw [if_neg he] at h
          exact Option.noConfusion h
      | num n =>
        simp only [hl] at h
        exact Option.noConfusion h
      | bool b =>
        simp only [hl] at h
        exact Option.noConfusion h
      | null =>
        simp only [hl] at h
        exact Option.noConfusion h
      | obj kvs2 =>
        simp only [hl] at h
        by_cases he : kvs2.isEmpty = true
        · rw [if_pos he] at h
          exact (Option.some.inj h).symm
        · rw [if_neg he] at h
          exact Option.noConfusion h
  | arr xs =>
    simp only [process_alert] at h
    by_cases ha : (xs.any fun x =>
        match x with | .str u => u == "alerts" | _ => false) = true
    · rw [if_pos ha] at h
      cases h
    · rw [if_neg ha] at h
      exact (Option.some.inj h).symm
  | str u =>
    simp only [process_alert] at h
    by_cases ha : (u.splitOn "alerts").length ≥ 2
    · rw [if_pos ha] at h
      cases h
    · rw [if_neg ha] at h
      exact (Option.some.inj h).symm
  | num n => cases h
  | bool b => cases h
  | null => cases h

/-- C6 counterexample: on a successful POST to /alerts the response body the
code writes is "\x7b\"status\": \"received\"\x7d" — with a space after
the colon — so it is not the byte string claimed. -/
theorem alert_response_body_counterexample :
    (do_POST "/alerts" (Except.ok (Json.obj [])) "T").1.status = 200 ∧
    (do_POST "/alerts" (Except.ok (Json.obj [])) "T").1.body ≠
      some "\x7b\"status\":\"received\"\x7d" := by
  constructor
  · rfl
  · have hb : (do_POST "/alerts" (Except.ok (Json.obj [])) "T").1.body =
        some "\x7b\"status\": \"received\"\x7d" := rfl
    rw [hb]
    intro h
    exact absurd (Option.some.inj h) (by decide)

/-- C6 (amended): alert-ingestion response contract. A POST to any path
other than /alerts gets 404 with nothing persisted; a POST to /alerts
whose body fails JSON parsing gets 400 with nothing persisted; a POST to
/alerts whose body parses and whose processing succeeds gets 200 with
body "\x7b\"status\": \"received\"\x7d" (a space after the colon, as the
source writes it) and appends exactly one line to the alerts log: the
timestamp prefix followed by the json.dumps re-serialization of the
received payload. -/
theorem alert_ingestion_contract (path : String) (body : Except String Json)
    (timestamp : String) :
    (path ≠ "/alerts" →
      do_POST path body timestamp =
        ({ status := 404, body := none }, none)) ∧
    (∀ msg, body = .error msg → path = "/alerts" →
      do_POST path body timestamp =
        ({ status := 400, body := none }, none)) ∧
    (∀ d, body = .ok d → path = "/alerts" →
      ∀ line, process_alert d timestamp = some line →
        do_POST path body timestamp =
          ({ status := 200,
             body := some "\x7b\"status\": \"received\"\x7d" }, some line) ∧
        line = "[" ++ timestamp ++ "] " ++ dumps d ++ "\n") := by
  refine ⟨?_, ?_, ?_⟩
  · intro hp
    rw [do_POST.eq_def, if_neg hp]
  · rintro msg rfl hp
    rw [do_POST.eq_def, if_pos hp]
  · rintro d rfl hp line hl
    refine ⟨?_, process_alert_line d timestamp line hl⟩
    rw [do_POST.eq_def, if_pos hp]
    simp only [hl]

/-- Witness for C6 (amended) at a concrete input: POSTing the empty JSON
object to /alerts yields 200, the status body with its space, and the
timestamp-prefixed serialization appended to the log. -/
theorem alert_ingestion_contract_witness :
    do_POST "/alerts" (Except.ok (Json.obj [])) "T" =
      ({ status := 200, body := some "\x7b\"status\": \"received\"\x7d" },
        some "[T] \x7b\x7d\n") :=
  ((alert_ingestion_contract "/alerts" (Except.ok (Json.obj [])) "T").2.2
    (Json.obj []) rfl rfl "[T] \x7b\x7d\n" rfl).1

/-- C7 counterexample: the JSON-line serialization of a sample generated
under SPIKE has no "pattern" member at all — the active pattern is not a
field of the serialized sample, so it cannot survive a round trip. -/
theorem roundtrip_pattern_counterexample :
    jsonGet (json_data (generate_log_entry
      { influx_client := true, current_pattern := .SPIKE,
        pattern_start_time := 0, pattern_duration := 30,
        base_request_rate := 1 } "2025-01-01T00:00:00+00:00" "id-1"
        0 0 0 0)) "pattern" = none := rfl

/-- C7 (amended): round-trip law for the fields the code actually
serializes. Serializing any log entry to its JSON-line object and parsing
it back yields identical values for timestamp, request_id, method, api
(the endpoint field's key in the code), status and latency_ms; the
serialized object has no pattern member — the active pattern is attached
only as a time-series tag at InfluxDB write time, not to the sample. -/
theorem log_entry_roundtrip (e : LogEntry) :
    parse_log_entry (json_data e) = some e ∧
    jsonGet (json_data e) "pattern" = none :=
  ⟨rfl, rfl⟩

/-- C8: sink-failure isolation. When the InfluxDB write attempt fails with
any error, write_to_influxdb returns false instead of propagating; the
tick still completes, and the simulation state it hands to the next
iteration is exactly the update_pattern result — identical to the state
after a successful write, so current_pattern, pattern_start_time,
pattern_duration and base_request_rate are unchanged by the failure. -/
theorem sink_failure_isolated (s : TrafficSimulator) (i : TickInput)
    (timestamp request_id : String) (mi ai : Fin 5) (rs rl : Nat)
    (j : ℚ) (msg : String) :
    write_to_influxdb (update_pattern s i.now i.r i.choice)
        (generate_log_entry (update_pattern s i.now i.r i.choice)
          timestamp request_id mi ai rs rl) (.error msg) = false ∧
    (runTick s i timestamp request_id mi ai rs rl (.error msg) j).state =
      update_pattern s i.now i.r i.choice ∧
    (runTick s i timestamp request_id mi ai rs rl (.error msg) j).state =
      (runTick s i timestamp request_id mi ai rs rl (.ok ()) j).state := by
  refine ⟨?_, rfl, rfl⟩
  unfold write_to_influxdb
  split <;> rfl

/-- C1: expiry law of the pattern state machine. After transitioning into a
non-Normal pattern `p` with duration `D > 0` at time `T`, `update_pattern`
at any `now > T + D` yields `current_pattern = NORMAL` and
`pattern_duration = 0` (for every outcome of the random draws), while at
any `now ≤ T + D` it leaves the whole state — in particular
current_pattern, pattern_start_time and pattern_duration — unchanged. -/
theorem expiry_law (s : TrafficSimulator) (p : TrafficPattern) (D T now : ℚ)
    (r : ℚ) (choice : Fin 4) (hp : p ≠ .NORMAL) (hD : 0 < D) :
    (now > T + D →
      (update_pattern (change_pattern s p D T) now r choice).current_pattern
          = .NORMAL ∧
      (update_pattern (change_pattern s p D T) now r choice).pattern_duration
          = 0) ∧
    (now ≤ T + D →
      update_pattern (change_pattern s p D T) now r choice
          = change_pattern s p D T) := by
  constructor
  · intro hnow
    have hfire : (change_pattern s p D T).pattern_duration > 0 ∧
        now - (change_pattern s p D T).pattern_start_time >
          (change_pattern s p D T).pattern_duration := by
      refine ⟨hD, ?_⟩
      simp only [change_pattern]
      linarith
    simp only [update_pattern, expiryStep, if_pos hfire]
    have hguard : ¬ ((change_pattern (change_pattern s p D T) .NORMAL 0
        now).current_pattern = TrafficPattern.NORMAL ∧ r < 1/20 ∧
        now - (change_pattern (change_pattern s p D T) .NORMAL 0
          now).pattern_start_time > 30) := by
      simp only [change_pattern]
      intro h
      have := h.2.2
      simp at this
      linarith
    simp only [if_neg hguard]
    simp [change_pattern]
  · intro hnow
    have hnofire : ¬ ((change_pattern s p D T).pattern_duration > 0 ∧
        now - (change_pattern s p D T).pattern_start_time >
          (change_pattern s p D T).pattern_duration) := by
      simp only [change_pattern]
      intro h
      linarith [h.2]
    simp only [update_pattern, expiryStep, if_neg hnofire]
    have hguard : ¬ ((change_pattern s p D T).current_pattern =
        TrafficPattern.NORMAL ∧ r < 1/20 ∧
        now - (change_pattern s p D T).pattern_start_time > 30) := by
      simp only [change_pattern]
      intro h
      exact hp h.1
    simp only [if_neg hguard]

/-- Witness for C1 at a concrete input: an OUTAGE of duration 20 entered at
time 5 is still in place at time 24 and has expired to (NORMAL, 0) at 26. -/
theorem expiry_law_witness :
    (update_pattern (change_pattern (initState 0 true) .OUTAGE 20 5)
        26 1 0).current_pattern = .NORMAL ∧
    (update_pattern (change_pattern (initState 0 true) .OUTAGE 20 5)
        26 1 0).pattern_duration = 0 ∧
    update_pattern (change_pattern (initState 0 true) .OUTAGE 20 5) 24 1 0
      = change_pattern (initState 0 true) .OUTAGE 20 5 := by
  refine ⟨?_, ?_, ?_⟩
  · exact ((expiry_law (initState 0 true) .OUTAGE 20 5 26 1 0
      (by decide) (by norm_num)).1 (by norm_num)).1
  · exact ((expiry_law (initState 0 true) .OUTAGE 20 5 26 1 0
      (by decide) (by norm_num)).1 (by norm_num)).2
  · exact (expiry_law (initState 0 true) .OUTAGE 20 5 24 1 0
      (by decide) (by norm_num)).2 (by norm_num)

end TrafficSim
